import Mathlib

/-
Verification of the TVPaint avalon plugin bridge
(src/avalon/tvpaint/plugin_code/library.cpp).

The C++ code is shallowly embedded: the global mutable state
(client_request_id, messages, responses) and the Communicator /
websocket_endpoint / connection_metadata members are folded into explicit
state records, transport effects become an explicit list of sent items, and
crashes (null-pointer dereferences, exceptions escaping) or non-terminating
loops become Option results with value none.
-/

namespace AvalonTvp

/-- Model of an nlohmann::json value (null, bool, number, string, array,
object as an ordered field list). Numbers are restricted to integers, which
covers every value the plugin manipulates. -/
inductive Json where
  | null : Json
  | bool (b : Bool) : Json
  | num (n : Int) : Json
  | str (s : String) : Json
  | arr (elems : List Json) : Json
  | obj (fields : List (String × Json)) : Json

/-- Lookup of a key in a json object (none when the key is absent or the
value is not an object). -/
def Json.objGet : Json → String → Option Json
  | .obj fields, k => fields.lookup k
  | _, _ => none

/-- Field update on a json object: replaces the value at the key if present,
appends the field otherwise, as nlohmann operator[] assignment does. -/
def Json.objSet : Json → String → Json → Json
  | .obj fields, k, v => .obj (go fields k v)
  | j, _, _ => j
where
  go : List (String × Json) → String → Json → List (String × Json)
    | [], k, v => [(k, v)]
    | (k0, v0) :: rest, k, v =>
      if k0 = k then (k0, v) :: rest else (k0, v0) :: go rest k v

/-- Field removal on a json object, as nlohmann erase does. -/
def Json.objErase : Json → String → Json
  | .obj fields, k => .obj (fields.filter (fun p => p.1 ≠ k))
  | j, _ => j

/-- Integer read of a json value. -/
def Json.asNum : Json → Option Int
  | .num n => some n
  | _ => none

/-- The code field of the error member of a serialized JSON-RPC error
response, when present. -/
def Json.errorCode (j : Json) : Option Int :=
  (j.objGet "error").bind (fun e => (e.objGet "code").bind Json.asNum)

/-- Model of a jsonrpcpp::Error (message text and integer code). -/
structure RpcError where
  code : Int
  message : String
deriving DecidableEq

/-- Model of a jsonrpcpp::Request. The plugin only ever produces and
correlates integer ids, so Id is modelled as Int. -/
structure Request where
  id : Int
  method : String
  params : Json

/-- Model of a jsonrpcpp::Notification (a method call without an id). -/
structure Notification where
  method : String
  params : Json

/-- Model of a jsonrpcpp::Response: an id plus either a result payload or an
error. A default-constructed Response (as in Communicator::call_method) has
a null id, modelled as id 0, and neither result nor error. -/
structure Response where
  id : Int
  result : Option Json
  error : Option RpcError

/-- Model of a default-constructed jsonrpcpp::Response. -/
def Response.empty : Response := { id := 0, result := none, error := none }

/-- Integer read of the result payload of a response. -/
def Response.resultNum (r : Response) : Option Int := r.result.bind Json.asNum

/-- Classification of a parsed inbound message, mirroring the jsonrpcpp
entity classes the plugin handles (batches never occur in this protocol). -/
inductive Entity where
  | req (r : Request) : Entity
  | notif (n : Notification) : Entity
  | resp (r : Response) : Entity

/-- One outbound item handed to the transport send call
(connection_metadata::send and the typed wrappers around it). -/
inductive Sent where
  | text (j : Json) : Sent
  | request (r : Request) : Sent
  | notification (n : Notification) : Sent
  | response (r : Response) : Sent

/-- The shared response table (global std::map responses, keyed by
request id). -/
abbrev Table := List (Int × Response)

/-- Map write responses[id] = response: overwrites the entry when the key is
present, inserts it otherwise. -/
def Table.set : Table → Int → Response → Table
  | [], i, r => [(i, r)]
  | (j, s) :: rest, i, r =>
    if j = i then (j, r) :: rest else (j, s) :: Table.set rest i r

/-- Map lookup responses.find(id). -/
def Table.lookup : Table → Int → Option Response
  | [], _ => none
  | (j, s) :: rest, i => if j = i then some s else Table.lookup rest i

/-- Model of the connection_metadata fields mutated by the transport event
handlers. -/
structure ConnMeta where
  status : String
  uri : String
  server : String
  error_reason : String

/-- Model of websocket_endpoint: client_metadata is a shared_ptr that stays
null until connect creates it; m_thread is a shared_ptr that stays null
until connect starts the event loop thread. -/
structure Endpoint where
  metadata : Option ConnMeta
  threadStarted : Bool
  perpetual : Bool

/-- A freshly constructed websocket_endpoint: no metadata, no thread. -/
def Endpoint.initial : Endpoint :=
  { metadata := none, threadStarted := false, perpetual := false }

/-- Transport events delivered by the websocketpp event loop to
connection_metadata (on_open, on_fail, on_close). -/
inductive Event where
  | onOpen (server : String) : Event
  | onFail (server : String) (reason : String) : Event
  | onClose (info : String) : Event

/-- Effect of one transport event on the connection metadata, exactly the
field writes of connection_metadata::on_open, on_fail and on_close. -/
def eventMeta : Event → ConnMeta → ConnMeta
  | .onOpen server, m => { m with status := "Open", server := server }
  | .onFail server reason, m =>
    { m with status := "Failed", server := server, error_reason := reason }
  | .onClose info, m => { m with status := "Closed", error_reason := info }

/-- An event fires through the handler bound to the current metadata object;
with no metadata no handler is registered and nothing happens. -/
def applyEvent (ev : Event) (e : Endpoint) : Endpoint :=
  { e with metadata := e.metadata.map (eventMeta ev) }

/-- Model of websocket_endpoint::connect. The boolean initError models
endpoint.get_connection returning an error code (the only path that yields
-1). The thread is started before the already-connected check, exactly as in
the source; on success a fresh metadata object in status Connecting replaces
the previous one and 1 is returned; the actual handshake completes (or
fails) later through events. -/
def websocket_endpoint.connect (e : Endpoint) (initError : Bool)
    (uri : String) : Endpoint × Int :=
  let e1 : Endpoint := { e with threadStarted := true, perpetual := true }
  if (e1.metadata.map (fun m => m.status == "Open")).getD false then
    (e1, 0)
  else if initError then
    (e1, -1)
  else
    let fresh : ConnMeta :=
      { status := "Connecting", uri := uri, server := "N/A",
        error_reason := "" }
    ({ e1 with metadata := some fresh }, 1)

/-- Model of websocket_endpoint::close_connection (also run by the
destructor). It stops the perpetual loop, then unconditionally dereferences
client_metadata to read its status (null dereference when no connect
created it), optionally closes the open connection, and unconditionally
joins m_thread (null dereference when connect never started it). none
models the crash; the boolean records whether a close frame was issued. -/
def websocket_endpoint.close_connection (e : Endpoint) :
    Option (Endpoint × Bool) :=
  let e1 : Endpoint := { e with perpetual := false }
  match e1.metadata with
  | none => none
  | some m =>
    if e1.threadStarted then some (e1, m.status == "Open") else none

/-- A request handler registered on the parser
(id, params) -> Response. -/
abbrev Handler := Int → Json → Response

/-- The parser request-callback registry
(register_request_callback name handler). The plugin registers no
notification callbacks. -/
abbrev Registry := List (String × Handler)

/-- Assoc lookup of a handler by method name. -/
def Registry.find : Registry → String → Option Handler
  | [], _ => none
  | (name, h) :: rest, m => if name = m then some h else Registry.find rest m

/-- Modelled from the spec: jsonrpcpp.hpp is vendored next to library.cpp
but is not part of the given sources. Parser::parse classifies an already
well-formed entity and, for a Request whose method has a registered request
callback, invokes the handler and returns its Response in place of the
request (spec 4.5: "mapping from method name to a local handler; invoked
when processing the Inbound Queue; produces a Response"); every other
entity is returned unchanged. -/
def Parser.parse (reg : Registry) : Entity → Entity
  | .req r =>
    match Registry.find reg r.method with
    | some h => .resp (h r.id r.params)
    | none => .req r
  | e => e

/-- Outcome of jsonrpcpp Parser::do_parse on one inbound text, the
interface process_message is written against. Modelled from the spec
(section 4.2): parsing yields a Request, Notification or Response;
malformed JSON raises a parse-error exception carrying code -32700; an
invalid request shape raises a request exception whose serialized form is
an error response with code -32600; other rpc exceptions are rewrapped as
parse errors; any other local failure is an ordinary exception. nullEntity
covers text that parses as JSON but matches no JSON-RPC entity shape, the
case the source handles in its explicit `if (!entity)` branch. -/
inductive ParseOutcome where
  | nullEntity : ParseOutcome
  | entity (e : Entity) : ParseOutcome
  | raiseRequestError (errJson : Json) : ParseOutcome
  | raiseParseError (msg : String) : ParseOutcome
  | raiseRpcError (msg : String) : ParseOutcome
  | raiseOther (msg : String) : ParseOutcome

/-- Serialized form of a jsonrpcpp ParseErrorException: a JSON-RPC error
response with null id and code -32700. -/
def parseErrorJson (msg : String) : Json :=
  .obj [("jsonrpc", .str "2.0"), ("id", .null),
        ("error", .obj [("code", .num (-32700)), ("message", .str msg)])]

/-- Modelled from the spec: serialized form of a jsonrpcpp RequestException
for an invalid request shape, a JSON-RPC error response echoing the request
id with code -32600 (spec 4.2: "An exception raised by the codec for a
protocol-level violation (invalid request shape) yields an error Response
with code -32600"). -/
def requestErrorJson (id : Json) (msg : String) : Json :=
  .obj [("jsonrpc", .str "2.0"), ("id", id),
        ("error", .obj [("code", .num (-32600)), ("message", .str msg)])]

/-- The mutable state of the bridge: the Communicator members
(websocket_url, connected, use_avalon), the file-scope globals
client_request_id, responses and messages, and the owned
websocket_endpoint. The queue holds the classification of each queued raw
text; requeuing through Parser.parse in process_requests reproduces it. -/
structure CommState where
  websocket_url : String
  connected : Bool
  use_avalon : Bool
  client_request_id : Int
  responses : Table
  messages : List Entity
  endpoint : Endpoint

/-- Model of connection_metadata::process_message for one inbound text whose
parse outcome is given: a Response is written into the shared responses
table (keyed by its integer id), a Request or Notification is appended to
the messages queue, a request exception or parse-style exception is
serialized and sent back, and any other exception is only logged. The empty
nullEntity branch of the source sends nothing. -/
def process_message (st : CommState) (po : ParseOutcome) :
    CommState × List Sent :=
  match po with
  | .nullEntity => (st, [])
  | .entity (.resp r) =>
    ({ st with responses := Table.set st.responses r.id r }, [])
  | .entity (.req r) => ({ st with messages := st.messages ++ [.req r] }, [])
  | .entity (.notif n) =>
    ({ st with messages := st.messages ++ [.notif n] }, [])
  | .raiseRequestError errJson => (st, [.text errJson])
  | .raiseParseError msg => (st, [.text (parseErrorJson msg)])
  | .raiseRpcError msg => (st, [.text (parseErrorJson msg)])
  | .raiseOther _ => (st, [])

/-- Model of connection_metadata::ping: writes the params seq value into
the result member, erases the method and params keys and sends the entity;
the returned json is the payload handed to send. -/
def connection_metadata.ping (entity : Json) : Json :=
  let seq := ((entity.objGet "params").bind (fun p => p.objGet "seq")).getD .null
  let result := (entity.objGet "result").getD (.obj [])
  let entity1 := entity.objSet "result" (result.objSet "seq" seq)
  (entity1.objErase "method").objErase "params"

/-- The polling loop of Communicator::call_method: each iteration looks the
request id up in the shared table and returns the stored response when
present, otherwise sleeps 100 ms and retries. The schedule lists, per sleep,
the writes the transport thread performs concurrently (each applied through
Table.set, as process_message does). An exhausted schedule with the id
still absent means the loop never terminates, modelled as none. -/
def pollLoop (rid : Int) : List (List (Int × Response)) → Table →
    Option (Response × Table)
  | [], tbl =>
    match Table.lookup tbl rid with
    | some r => some (r, tbl)
    | none => none
  | batch :: rest, tbl =>
    match Table.lookup tbl rid with
    | some r => some (r, tbl)
    | none =>
      pollLoop rid rest (batch.foldl (fun t p => Table.set t p.1 p.2) tbl)

/-- State built by the Communicator constructor from a non-null
WEBSOCKET_URL value: not connected, use_avalon exactly when the value is
nonempty, fresh globals and a fresh endpoint. -/
def Communicator.construct (url : String) : CommState :=
  { websocket_url := url, connected := false, use_avalon := !(url == ""),
    client_request_id := 1, responses := [], messages := [],
    endpoint := Endpoint.initial }

/-- Model of the Communicator constructor. getenv("WEBSOCKET_URL") is none
when the variable is absent; the source assigns the returned char pointer
to a std::string, so a null pointer is undefined behavior (libstdc++ raises
std::logic_error, MSVC crashes), modelled as none. -/
def Communicator.init (env : Option String) : Option CommState :=
  env.map Communicator.construct

/-- Model of Communicator::connect. initError tells whether
endpoint.connect fails during connection initialization (result -1); on -1
the bridge clears connected and use_avalon, on any other result it sets
both. -/
def Communicator.connect (st : CommState) (initError : Bool) : CommState :=
  if !st.use_avalon then st
  else
    let (ep, conResult) :=
      websocket_endpoint.connect st.endpoint initError st.websocket_url
    if conResult = -1 then
      { st with endpoint := ep, connected := false, use_avalon := false }
    else
      { st with endpoint := ep, connected := true, use_avalon := true }

/-- Model of Communicator::call_notification: returns silently unless
use_avalon and connected are both set, otherwise builds a Notification and
sends it through endpoint.send_notification, which dereferences
client_metadata (none models the null dereference) and hands the payload to
the transport send call. -/
def Communicator.call_notification (st : CommState) (methodName : String)
    (params : Json) : Option (CommState × List Sent) :=
  if !st.use_avalon || !st.connected then some (st, [])
  else
    match st.endpoint.metadata with
    | none => none
    | some _ => some (st, [.notification { method := methodName, params := params }])

/-- Model of Communicator::call_method: returns a default Response unless
use_avalon and connected are both set; otherwise takes the next
client_request_id (post-incrementing the global), sends the Request through
endpoint.send_request (a client_metadata dereference), and enters the
polling loop on the shared table. none covers the null dereference and the
loop never finding the id (the call blocks forever). -/
def Communicator.call_method (st : CommState) (methodName : String)
    (params : Json) (sched : List (List (Int × Response))) :
    Option (Response × CommState × List Sent) :=
  if !st.use_avalon || !st.connected then some (Response.empty, st, [])
  else
    match st.endpoint.metadata with
    | none => none
    | some _ =>
      let rid := st.client_request_id
      let st1 := { st with client_request_id := rid + 1 }
      let req : Request := { id := rid, method := methodName, params := params }
      match pollLoop rid sched st1.responses with
      | none => none
      | some (r, tbl) =>
        some (r, { st1 with responses := tbl }, [.request req])

/-- Dispatch of one queued entity inside the process_requests loop: the
entity is re-parsed (running a registered request callback if any); a
Response is sent back as is; anything else is cast with dynamic_pointer_cast
to Request and answered with a method-not-found error Response (code -32601)
echoing the request id. For a Notification the cast yields a null pointer
and the immediate method() call dereferences it, modelled as none. -/
def processEntity (reg : Registry) (e : Entity) : Option Sent :=
  match Parser.parse reg e with
  | .resp r => some (.response r)
  | .req r =>
    some (.response
      { id := r.id, result := none,
        error := some { code := -32601,
                        message := "Method \"" ++ r.method ++ "\" not found" } })
  | .notif _ => none

/-- The while loop of Communicator::process_requests over the queued
entities, in FIFO order; none models the crash on the first entity whose
dispatch dereferences null. -/
def drainLoop (reg : Registry) : List Entity → Option (List Sent)
  | [] => some []
  | e :: rest =>
    match processEntity reg e, drainLoop reg rest with
    | some s, some ss => some (s :: ss)
    | _, _ => none

/-- Model of Communicator::process_requests: returns at once unless
use_avalon and connected are set and the queue is nonempty; otherwise every
send goes through client_metadata (null dereference when absent, none) and
the loop pops and answers each queued entity, leaving the queue empty. -/
def Communicator.process_requests (reg : Registry) (st : CommState) :
    Option (CommState × List Sent) :=
  if !st.use_avalon || !st.connected || st.messages.isEmpty then some (st, [])
  else
    match st.endpoint.metadata with
    | none => none
    | some _ =>
      match drainLoop reg st.messages with
      | none => none
      | some sents => some ({ st with messages := [] }, sents)

/-- Outcome of one TVSendCmd invocation by the host (the TVPaint SDK is an
external collaborator): a normal return carries the integer result code and
the George output text the host produces; raise models a thrown
exception. -/
inductive GeorgeOutcome where
  | ok (result : Int) (textOutput : String) : GeorgeOutcome
  | raise (msg : String) : GeorgeOutcome

/-- Model of the execute_george request callback, parameterized by the host
primitive. The source declares `char *_output = ""` (a string literal),
passes the pointer by value to TVSendCmd — so the local pointer can never
be reassigned and the host output text never reaches it — and then tests
`_output == ""`, a pointer comparison between the unchanged literal and
another "" literal, which is true under literal pooling; the handler
therefore always answers with bool(result) on the normal path. A thrown
exception is caught and its message returned as the result payload. The
params json must hold the script string at index 0; a conversion failure
there is also caught and answered with the exception text. -/
def execute_george (host : String → GeorgeOutcome) (id : Int)
    (params : Json) : Response :=
  match params with
  | .arr (.str script :: _) =>
    match host script with
    | .ok result _ => { id := id, result := some (.bool (result ≠ 0)), error := none }
    | .raise msg => { id := id, result := some (.str msg), error := none }
  | _ => { id := id, result := some (.str "type_error"), error := none }

/-- The registry built by register_callbacks: only the execute_george
request callback, bound to a host primitive. -/
def register_callbacks (host : String → GeorgeOutcome) : Registry :=
  [("execute_george", execute_george host)]

/-- One interaction with the bridge from either execution context: the host
calls connect, call_method, call_notification or process_requests, and the
transport thread delivers a connection event. -/
inductive Op where
  | connect (initError : Bool) : Op
  | call (methodName : String) (params : Json)
      (sched : List (List (Int × Response))) : Op
  | notify (methodName : String) (params : Json) : Op
  | drain (reg : Registry) : Op
  | event (ev : Event) : Op

/-- Effect of one interaction on the bridge state, with the items it sends
on the transport. -/
def stepOp (st : CommState) : Op → Option (CommState × List Sent)
  | .connect initError => some (Communicator.connect st initError, [])
  | .call m p sched =>
    (Communicator.call_method st m p sched).map (fun x => (x.2.1, x.2.2))
  | .notify m p => Communicator.call_notification st m p
  | .drain reg => Communicator.process_requests reg st
  | .event ev => some ({ st with endpoint := applyEvent ev st.endpoint }, [])

/-- A sequence of interactions, accumulating everything sent. -/
def runOps (st : CommState) : List Op → Option (CommState × List Sent)
  | [] => some (st, [])
  | op :: rest =>
    match stepOp st op with
    | none => none
    | some (st1, s1) =>
      match runOps st1 rest with
      | none => none
      | some (st2, s2) => some (st2, s1 ++ s2)

/-
Concrete fixtures used by the witness and counterexample theorems.
-/

/-- A host whose George execution succeeds with result code 1 and produces
the output text "1.0". -/
def hostOk : String → GeorgeOutcome := fun _ => .ok 1 "1.0"

/-- A host whose George execution throws. -/
def hostRaise : String → GeorgeOutcome := fun _ => .raise "George error"

/-- The registry as register_callbacks builds it over the hostOk host. -/
def registry0 : Registry := register_callbacks hostOk

/-- Bridge state after a constructor run with WEBSOCKET_URL set and a
connect whose initialization succeeded. -/
def stConn : CommState :=
  Communicator.connect (Communicator.construct "ws://localhost:8080") false

/-- A first response for request id 5. -/
def respA : Response := { id := 5, result := some (.num 0), error := none }

/-- A second, different response for request id 5. -/
def respB : Response := { id := 5, result := some (.num 1), error := none }

/-- A response for request id 1. -/
def respW : Response := { id := 1, result := some (.str "done"), error := none }

/-- The built-in keep-alive request as the peer sends it. -/
def pingReq : Request :=
  { id := 2, method := "ping", params := .obj [("seq", .num 7)] }

/-- The json form of the keep-alive request. -/
def pingJson : Json :=
  .obj [("jsonrpc", .str "2.0"), ("id", .num 2), ("method", .str "ping"),
        ("params", .obj [("seq", .num 7)])]

/-
Helper lemmas about the response table and the polling loop.
-/

/-- Writing an entry makes it the value subsequent lookups of that key
see. -/
theorem Table.lookup_set_self (i : Int) (r : Response) :
    ∀ t : Table, Table.lookup (Table.set t i r) i = some r := by
  intro t
  induction t with
  | nil => simp [Table.set, Table.lookup]
  | cons hd tl ih =>
    by_cases h : hd.1 = i
    · simp [Table.set, Table.lookup, h]
    · simp [Table.set, Table.lookup, h, ih]

/-- Writing one key leaves lookups of other keys unchanged. -/
theorem Table.lookup_set_ne (i j : Int) (r : Response) (hne : j ≠ i) :
    ∀ t : Table, Table.lookup (Table.set t j r) i = Table.lookup t i := by
  intro t
  induction t with
  | nil => simp [Table.set, Table.lookup, hne]
  | cons hd tl ih =>
    by_cases h : hd.1 = j
    · simp [Table.set, Table.lookup, h, hne]
    · simp [Table.set, Table.lookup, h, ih]

/-- A batch of writes that never touches the key rid leaves a lookup of rid
unchanged. -/
theorem Table.lookup_foldl_ne (rid : Int) :
    ∀ (batch : List (Int × Response)) (t : Table),
      (∀ p ∈ batch, p.1 ≠ rid) →
      Table.lookup (batch.foldl (fun t p => Table.set t p.1 p.2) t) rid
        = Table.lookup t rid := by
  intro batch
  induction batch with
  | nil => intro t _; rfl
  | cons hd tl ih =>
    intro t hb
    have h1 : hd.1 ≠ rid := hb hd (List.mem_cons_self hd tl)
    have h2 : ∀ p ∈ tl, p.1 ≠ rid := fun p hp => hb p (List.mem_cons_of_mem hd hp)
    simp only [List.foldl_cons, ih (Table.set t hd.1 hd.2) h2,
      Table.lookup_set_ne rid hd.1 hd.2 h1]

/-- A found entry is returned as is and the table handed back still holds
it. -/
theorem pollLoop_found (rid : Int) (r : Response) :
    ∀ (sched : List (List (Int × Response))) (tbl : Table),
      Table.lookup tbl rid = some r → pollLoop rid sched tbl = some (r, tbl) := by
  intro sched tbl h
  cases sched <;> simp [pollLoop, h]

/-- When the loop terminates, the entry it returned is still in the table it
leaves behind. -/
theorem pollLoop_preserves_entry (rid : Int) :
    ∀ (sched : List (List (Int × Response))) (tbl tbl1 : Table) (r : Response),
      pollLoop rid sched tbl = some (r, tbl1) →
      Table.lookup tbl1 rid = some r := by
  intro sched
  induction sched with
  | nil =>
    intro tbl tbl1 r h
    cases hl : Table.lookup tbl rid with
    | none => simp [pollLoop, hl] at h
    | some r0 =>
      simp [pollLoop, hl] at h
      rw [← h.2, hl, h.1]
  | cons batch rest ih =>
    intro tbl tbl1 r h
    cases hl : Table.lookup tbl rid with
    | none =>
      simp [pollLoop, hl] at h
      exact ih _ tbl1 r h
    | some r0 =>
      simp [pollLoop, hl] at h
      rw [← h.2, hl, h.1]

/-- With the id absent and a schedule that never resolves it, the loop never
returns. -/
theorem pollLoop_blocks (rid : Int) :
    ∀ (sched : List (List (Int × Response))) (tbl : Table),
      Table.lookup tbl rid = none →
      (∀ batch ∈ sched, ∀ p ∈ batch, p.1 ≠ rid) →
      pollLoop rid sched tbl = none := by
  intro sched
  induction sched with
  | nil => intro tbl h _; simp [pollLoop, h]
  | cons batch rest ih =>
    intro tbl h hb
    have hbatch : ∀ p ∈ batch, p.1 ≠ rid :=
      hb batch (List.mem_cons_self batch rest)
    have hrest : ∀ b ∈ rest, ∀ p ∈ b, p.1 ≠ rid :=
      fun b hbmem => hb b (List.mem_cons_of_mem batch hbmem)
    have h2 : Table.lookup
        (batch.foldl (fun t p => Table.set t p.1 p.2) tbl) rid = none := by
      rw [Table.lookup_foldl_ne rid batch tbl hbatch]; exact h
    simp [pollLoop, h, ih _ h2 hrest]

/-- When the drain loop completes, the item sent for the queue entry at any
index is exactly what dispatching that entry produces. -/
theorem drainLoop_get (reg : Registry) :
    ∀ (ms : List Entity) (outs : List Sent) (i : Nat) (e : Entity),
      drainLoop reg ms = some outs → ms[i]? = some e →
      outs[i]? = processEntity reg e := by
  intro ms
  induction ms with
  | nil => intro outs i e _ hi; simp at hi
  | cons hd tl ih =>
    intro outs i e hrun hi
    cases hp : processEntity reg hd with
    | none => simp [drainLoop, hp] at hrun
    | some s =>
      cases hrest : drainLoop reg tl with
      | none => simp [drainLoop, hp, hrest] at hrun
      | some ss =>
        simp [drainLoop, hp, hrest] at hrun
        cases i with
        | zero =>
          simp at hi
          rw [← hrun, ← hi]
          simp [hp]
        | succ n =>
          simp at hi
          rw [← hrun]
          simpa using ih ss n e hrest hi

/-- In a permanently disabled state every single interaction keeps the
bridge disabled and sends nothing. -/
theorem stepOp_unusable (st : CommState) (op : Op) (st1 : CommState)
    (s : List Sent) (hoff : st.use_avalon = false)
    (h : stepOp st op = some (st1, s)) :
    st1.use_avalon = false ∧ s = [] := by
  cases op with
  | connect initError =>
    simp [stepOp, Communicator.connect, hoff] at h
    rw [← h.1, ← h.2]; exact ⟨hoff, rfl⟩
  | call m p sched =>
    simp [stepOp, Communicator.call_method, hoff] at h
    rw [← h.1, ← h.2]; exact ⟨hoff, rfl⟩
  | notify m p =>
    simp [stepOp, Communicator.call_notification, hoff] at h
    rw [← h.1, ← h.2]; exact ⟨hoff, rfl⟩
  | drain reg =>
    simp [stepOp, Communicator.process_requests, hoff] at h
    rw [← h.1, ← h.2]; exact ⟨hoff, rfl⟩
  | event ev =>
    simp [stepOp] at h
    rw [← h.1, ← h.2]; exact ⟨hoff, rfl⟩

/-- In a permanently disabled state every sequence of interactions keeps the
bridge disabled and sends nothing. -/
theorem runOps_unusable :
    ∀ (ops : List Op) (st st2 : CommState) (sends : List Sent),
      st.use_avalon = false → runOps st ops = some (st2, sends) →
      st2.use_avalon = false ∧ sends = [] := by
  intro ops
  induction ops with
  | nil =>
    intro st st2 sends hoff h
    simp [runOps] at h
    rw [← h.1, ← h.2]; exact ⟨hoff, rfl⟩
  | cons op rest ih =>
    intro st st2 sends hoff h
    cases hs : stepOp st op with
    | none => simp [runOps, hs] at h
    | some p =>
      obtain ⟨st1, s1⟩ := p
      have hstep := stepOp_unusable st op st1 s1 hoff hs
      cases hr : runOps st1 rest with
      | none => simp [runOps, hs, hr] at h
      | some q =>
        obtain ⟨stq, sq⟩ := q
        have htail := ih st1 stq sq hstep.1 hr
        simp [runOps, hs, hr] at h
        refine ⟨by rw [← h.1]; exact htail.1, ?_⟩
        rw [← h.2, hstep.2, htail.2]; rfl

/-
Claim theorems.
-/

/-- C10: close_connection is total exactly when a prior connect attempt got
past connection initialization. From a fresh endpoint it dereferences a
null client_metadata (none); after a connect attempt it is defined exactly
when the attempt did not return -1, and this stays true across any later
transport event, since the events only mutate the existing metadata. -/
theorem close_connection_requires_past_init_connect :
    ∀ (uri : String) (initError : Bool) (ev : Event),
      websocket_endpoint.close_connection Endpoint.initial = none ∧
      ((websocket_endpoint.close_connection
          (websocket_endpoint.connect Endpoint.initial initError uri).1).isSome
        ↔ (websocket_endpoint.connect Endpoint.initial initError uri).2 ≠ -1) ∧
      ((websocket_endpoint.close_connection
          (applyEvent ev
            (websocket_endpoint.connect Endpoint.initial initError uri).1)).isSome
        ↔ (websocket_endpoint.connect Endpoint.initial initError uri).2 ≠ -1) := by
  intro uri initError ev
  cases initError <;> cases ev <;>
    simp [websocket_endpoint.connect, websocket_endpoint.close_connection,
      applyEvent, eventMeta, Endpoint.initial]

/-- C7: with WEBSOCKET_URL absent the Communicator constructor assigns a
null char pointer to a std::string and crashes (the bridge never reaches
the disabled no-op state the claim describes); with WEBSOCKET_URL empty it
does enter the disabled state, where call_method returns the default
Response at once (no id allocated, nothing polled, nothing sent) and
call_notification returns at once with nothing sent. -/
theorem env_unset_crashes_constructor :
    Communicator.init none = none ∧
    Communicator.init (some "") = some (Communicator.construct "") ∧
    (Communicator.construct "").use_avalon = false ∧
    Communicator.call_method (Communicator.construct "") "workfiles_tool"
        (.arr []) [] = some (Response.empty, Communicator.construct "", []) ∧
    Communicator.call_notification (Communicator.construct "") "workfiles_tool"
        (.arr []) = some (Communicator.construct "", []) :=
  ⟨rfl, rfl, rfl, rfl, rfl⟩

/-- C4: a queued Notification crashes the drain instead of being discarded:
process_requests answers every non-Response entity through a
dynamic_pointer_cast to Request, which is null for a Notification, and the
immediate method() call dereferences it. -/
theorem notification_in_drain_dereferences_null :
    Communicator.process_requests registry0
      { stConn with messages := [.notif ⟨"avalon_event", .arr []⟩] }
      = none := rfl

/-- C8: the keep-alive handler connection_metadata::ping would echo the
request seq inside result and drop the method and params keys, but nothing
in the plugin ever invokes it; the inbound ping request is queued like any
request and the drain answers it through the generic unknown-method path
with a -32601 error Response instead of the echo. -/
theorem ping_handler_never_wired :
    connection_metadata.ping pingJson
      = .obj [("jsonrpc", .str "2.0"), ("id", .num 2),
              ("result", .obj [("seq", .num 7)])] ∧
    ((connection_metadata.ping pingJson).objGet "result").bind
        (fun r => r.objGet "seq") = some (.num 7) ∧
    (connection_metadata.ping pingJson).objGet "method" = none ∧
    (connection_metadata.ping pingJson).objGet "params" = none ∧
    process_message stConn (.entity (.req pingReq))
      = ({ stConn with messages := [.req pingReq] }, []) ∧
    Communicator.process_requests registry0
        { stConn with messages := [.req pingReq] }
      = some ({ stConn with messages := [] },
          [.response ⟨2, none, some ⟨-32601, "Method \"ping\" not found"⟩⟩]) :=
  ⟨rfl, rfl, rfl, rfl, rfl, rfl⟩

/-- C9: the script-execution handler never returns the textual output of
the command: its output pointer is a string literal passed by value to
TVSendCmd and compared back by address, so a successful execution is always
answered with the boolean flag bool(result), here with the host producing
the output text "1.0"; a throwing execution is answered with the exception
text as the result payload, as the claim states. -/
theorem execute_george_drops_text_output :
    execute_george hostOk 3 (.arr [.str "tv_version"])
      = { id := 3, result := some (.bool true), error := none } ∧
    ((execute_george hostOk 3 (.arr [.str "tv_version"])).result
        = some (.str "1.0") → False) ∧
    execute_george hostRaise 3 (.arr [.str "tv_version"])
      = { id := 3, result := some (.str "George error"), error := none } :=
  ⟨rfl, fun h => Json.noConfusion (Option.some.inj h), rfl⟩

/-- C5: whenever the drain completes on a usable connected bridge, every
queued Request whose method has no registered handler is answered, at its
position in the outbound sequence, by an error Response carrying code
-32601 and the request id. -/
theorem unregistered_method_yields_method_not_found
    (reg : Registry) (st st1 : CommState) (outs : List Sent)
    (i : Nat) (r : Request)
    (hu : st.use_avalon = true) (hc : st.connected = true)
    (hrun : Communicator.process_requests reg st = some (st1, outs))
    (hi : st.messages[i]? = some (.req r))
    (hm : Registry.find reg r.method = none) :
    outs[i]? = some (.response ⟨r.id, none,
      some ⟨-32601, "Method \"" ++ r.method ++ "\" not found"⟩⟩) := by
  have hne : st.messages.isEmpty = false := by
    cases hml : st.messages with
    | nil => rw [hml] at hi; simp at hi
    | cons a l => rfl
  rw [Communicator.process_requests, hu, hc, hne] at hrun
  simp at hrun
  cases hmeta : st.endpoint.metadata with
  | none => rw [hmeta] at hrun; simp at hrun
  | some meta =>
    rw [hmeta] at hrun
    cases hd : drainLoop reg st.messages with
    | none => rw [hd] at hrun; simp at hrun
    | some sents =>
      rw [hd] at hrun
      simp at hrun
      rw [← hrun.2, drainLoop_get reg st.messages sents i (.req r) hd hi]
      simp [processEntity, Parser.parse, hm]

/-- C5 witness: a concrete drain on a queue holding one request for the
unregistered method workfiles_tool. -/
theorem unregistered_method_yields_method_not_found_witness :
    ([Sent.response ⟨9, none, some ⟨-32601, "Method \"workfiles_tool\" not found"⟩⟩])[0]?
      = some (.response ⟨9, none,
          some ⟨-32601, "Method \"workfiles_tool\" not found"⟩⟩) :=
  unregistered_method_yields_method_not_found registry0
    { stConn with messages := [.req ⟨9, "workfiles_tool", .arr []⟩] }
    { stConn with messages := [] }
    [Sent.response ⟨9, none, some ⟨-32601, "Method \"workfiles_tool\" not found"⟩⟩]
    0 ⟨9, "workfiles_tool", .arr []⟩ rfl rfl rfl rfl rfl

/-- C6 counterexample: an inbound text with an invalid request shape (a
JSON-RPC structural violation) is answered with the serialized request
exception, whose error code is -32600, not -32700; and an inbound text that
parses as JSON but matches no JSON-RPC entity shape is dropped with no
reply at all. -/
theorem structural_violation_not_answered_32700 :
    process_message stConn (.raiseRequestError (requestErrorJson (.num 1) "invalid request"))
      = (stConn, [.text (requestErrorJson (.num 1) "invalid request")]) ∧
    (requestErrorJson (.num 1) "invalid request").errorCode = some (-32600) ∧
    ((-32600 : Int) = -32700 → False) ∧
    process_message stConn .nullEntity = (stConn, []) :=
  ⟨rfl, rfl, by decide, rfl⟩

/-- C6 amended: malformed JSON (a parse exception) and rewrapped rpc
exceptions are answered with the serialized -32700 parse error; an invalid
request shape is answered with its own serialized exception (code -32600);
text matching no entity shape is dropped silently; and any other unexpected
failure is only logged, with the input dropped and no reply. -/
theorem process_message_error_reply_paths :
    ∀ (st : CommState) (msg : String) (j : Json),
      process_message st (.raiseParseError msg)
        = (st, [.text (parseErrorJson msg)]) ∧
      (parseErrorJson msg).errorCode = some (-32700) ∧
      process_message st (.raiseRpcError msg)
        = (st, [.text (parseErrorJson msg)]) ∧
      process_message st (.raiseRequestError j) = (st, [.text j]) ∧
      process_message st (.raiseOther msg) = (st, []) ∧
      process_message st .nullEntity = (st, []) :=
  fun _ _ _ => ⟨rfl, rfl, rfl, rfl, rfl, rfl⟩

/-- C1 counterexample: connect() whose initialization succeeds followed by
a handshake failure delivered through on_fail leaves use_avalon and
connected set, and a subsequent notify() still hands a notification to the
transport, so the bridge is not a no-op after this failed connect. -/
theorem handshake_failure_does_not_disable :
    (runOps (Communicator.construct "ws://localhost:8080")
        [Op.connect false, Op.event (.onFail "N/A" "connection refused"),
         Op.notify "workfiles_tool" (.arr [])]).map
        (fun q => (q.1.use_avalon, q.1.connected, q.2))
      = some (true, true, [.notification ⟨"workfiles_tool", .arr []⟩]) ∧
    (([Sent.notification ⟨"workfiles_tool", .arr []⟩] : List Sent) = [] → False) :=
  ⟨rfl, fun h => List.noConfusion h⟩

/-- C1 amended: only a connect whose initialization fails (endpoint.connect
returning -1) moves the bridge to the permanently unusable state, where it
stays for good: every later interaction keeps use_avalon cleared and sends
nothing. A handshake failure reported through on_fail leaves use_avalon
unchanged. -/
theorem connect_init_failure_permanently_disables
    (url : String) (st : CommState) (ops : List Op) (st2 : CommState)
    (sends : List Sent) (banner reason : String)
    (hurl : (Communicator.construct url).use_avalon = true)
    (hoff : st.use_avalon = false)
    (hrun : runOps st ops = some (st2, sends)) :
    (Communicator.connect (Communicator.construct url) true).use_avalon = false ∧
    (Communicator.connect (Communicator.construct url) true).connected = false ∧
    st2.use_avalon = false ∧ sends = [] ∧
    (stepOp st (.event (.onFail banner reason))).map (fun q => q.1.use_avalon)
      = some st.use_avalon := by
  have hne : ¬ url = "" := by
    simpa [Communicator.construct] using hurl
  refine ⟨?_, ?_, (runOps_unusable ops st st2 sends hoff hrun).1,
    (runOps_unusable ops st st2 sends hoff hrun).2, ?_⟩
  · simp [Communicator.connect, hurl, websocket_endpoint.connect,
      Communicator.construct, Endpoint.initial, hne]
  · simp [Communicator.connect, hurl, websocket_endpoint.connect,
      Communicator.construct, Endpoint.initial, hne]
  · simp [stepOp]

/-- C1 witness: the init-failure and permanence facts at concrete inputs (a
disabled bridge state and one notify interaction). -/
theorem connect_init_failure_permanently_disables_witness :
    (Communicator.connect (Communicator.construct "ws://localhost:8080") true).use_avalon
        = false ∧
    (Communicator.connect (Communicator.construct "ws://localhost:8080") true).connected
        = false ∧
    (Communicator.construct "").use_avalon = false ∧ ([] : List Sent) = [] ∧
    (stepOp (Communicator.construct "")
        (.event (.onFail "N/A" "refused"))).map (fun q => q.1.use_avalon)
      = some (Communicator.construct "").use_avalon :=
  connect_init_failure_permanently_disables "ws://localhost:8080"
    (Communicator.construct "") [Op.notify "workfiles_tool" (.arr [])]
    (Communicator.construct "") [] "N/A" "refused" rfl rfl rfl

/-- C2 counterexample: resolves are unconditional overwrites, so a second
resolve for id 5 is not a no-op — the pending poll then returns the second
response, not the first — and a resolve for id 7, for which nothing is
pending, stores the response in the table instead of discarding it. -/
theorem second_resolve_overwrites :
    pollLoop 5 [[(5, respA), (5, respB)]] [] = some (respB, [(5, respB)]) ∧
    (respA = respB → False) ∧
    Table.set (Table.set [] 5 respA) 5 respB = [(5, respB)] ∧
    Table.lookup (Table.set [] 7 respA) 7 = some respA ∧
    ((Table.set [] 7 respA : Table) = [] → False) :=
  ⟨rfl, fun h => absurd (congrArg Response.resultNum h) (by decide),
   rfl, rfl, fun h => by simp [Table.set] at h⟩

/-- C2 amended: a call for an id blocks (the poll loop never returns) as
long as nothing resolves that id; once the table holds an entry for the id,
the poll returns the value currently stored, leaving it in place; a resolve
always stores its response under its id, overwriting any previous entry and
inserting even when no call is pending. call_method itself never returns
when nothing ever resolves its request id. -/
theorem pending_call_polling_behaviour
    (rid i : Int) (tbl tbl2 t : Table)
    (sched sched2 : List (List (Int × Response)))
    (r2 r : Response) (stc : CommState) (m : String) (p : Json)
    (hnone : Table.lookup tbl rid = none)
    (hsched : ∀ batch ∈ sched, ∀ q ∈ batch, q.1 ≠ rid)
    (hfound : Table.lookup tbl2 rid = some r2)
    (hcu : stc.use_avalon = true) (hcc : stc.connected = true)
    (hcl : Table.lookup stc.responses stc.client_request_id = none) :
    pollLoop rid sched tbl = none ∧
    pollLoop rid sched2 tbl2 = some (r2, tbl2) ∧
    Table.lookup (Table.set t i r) i = some r ∧
    Communicator.call_method stc m p [] = none := by
  refine ⟨pollLoop_blocks rid sched tbl hnone hsched,
    pollLoop_found rid r2 sched2 tbl2 hfound,
    Table.lookup_set_self i r t, ?_⟩
  rw [Communicator.call_method, hcu, hcc]
  cases hmeta : stc.endpoint.metadata with
  | none => simp [hmeta]
  | some meta => simp [hmeta, pollLoop, hcl]

/-- C2 witness: the polling facts at concrete inputs — an empty table with
an unrelated resolve for id 6, a table already holding the response for id
5, a write at id 7, and a concrete connected state with an empty
schedule. -/
theorem pending_call_polling_behaviour_witness :
    pollLoop 5 [[(6, respB)]] [] = none ∧
    pollLoop 5 [] [(5, respA)] = some (respA, [(5, respA)]) ∧
    Table.lookup (Table.set [] 7 respA) 7 = some respA ∧
    Communicator.call_method stConn "workfiles_tool" (.arr []) [] = none :=
  pending_call_polling_behaviour 5 7 [] [(5, respA)] [] [[(6, respB)]] []
    respA respA stConn "workfiles_tool" (.arr [])
    rfl (by decide) rfl rfl rfl rfl

/-- C3 counterexample: a call for request id 1 that is resolved and returns
leaves the entry for id 1 in the responses table — nothing erases it. -/
theorem call_method_entry_persists_cex :
    (Communicator.call_method stConn "workfiles_tool" (.arr [])
        [[(1, respW)]]).map (fun x => (x.1, Table.lookup x.2.1.responses 1))
      = some (respW, some respW) ∧
    ((some respW : Option Response) = none → False) :=
  ⟨rfl, fun h => Option.noConfusion h⟩

/-- C3 amended: when call_method returns on a usable connected bridge, the
returned response is still stored in the table under the allocated request
id (the entry is never removed), the id counter has advanced by one, and
exactly the one request was sent. -/
theorem call_method_leaves_entry
    (st : CommState) (m : String) (p : Json)
    (sched : List (List (Int × Response)))
    (r : Response) (st1 : CommState) (sends : List Sent)
    (hu : st.use_avalon = true) (hc : st.connected = true)
    (h : Communicator.call_method st m p sched = some (r, st1, sends)) :
    Table.lookup st1.responses st.client_request_id = some r ∧
    st1.client_request_id = st.client_request_id + 1 ∧
    sends = [.request ⟨st.client_request_id, m, p⟩] := by
  rw [Communicator.call_method, hu, hc] at h
  simp at h
  cases hmeta : st.endpoint.metadata with
  | none => rw [hmeta] at h; simp at h
  | some meta =>
    rw [hmeta] at h
    simp at h
    cases hp : pollLoop st.client_request_id sched st.responses with
    | none => rw [hp] at h; simp at h
    | some q =>
      obtain ⟨r0, tbl⟩ := q
      rw [hp] at h
      simp at h
      obtain ⟨hr, hst, hs⟩ := h
      rw [← hst, ← hr]
      exact ⟨pollLoop_preserves_entry st.client_request_id sched
        st.responses tbl r0 hp, rfl, by rw [← hs]⟩

/-- C3 witness: a concrete resolved call for request id 1. -/
theorem call_method_leaves_entry_witness :
    Table.lookup [(1, respW)] (1 : Int) = some respW ∧
    (2 : Int) = 1 + 1 ∧
    [Sent.request ⟨1, "workfiles_tool", .arr []⟩]
      = [Sent.request ⟨1, "workfiles_tool", .arr []⟩] :=
  call_method_leaves_entry stConn "workfiles_tool" (.arr []) [[(1, respW)]]
    respW { stConn with client_request_id := 2, responses := [(1, respW)] }
    [Sent.request ⟨1, "workfiles_tool", .arr []⟩] rfl rfl rfl

end AvalonTvp
